import Mathlib

/-!
Shallow embedding of the CivicPulse report-submission pipeline and its
mutations, translated from the repository sources:

* `src/civic-pulse/src/App.js` — the main front-end variant
  (`submitReport`, `upvote`, `addComment`, `setLocationFromInput`, and the
  "Initial code.js" single-buffer `addComment` variant).
* `src/unnamed/part_000` ("sample run.js") — the address-geocoding variant
  (`geocodeAddress`, `submitReport`).
* `src/unnamed/part_002` — the photo-required variant (`submitReport`).
* `src/routes/adminRoutes.js` + `src/models/Complaints.js` — the backend
  status/assignment routes and the complaint-creation route in
  `src/unnamed/part_000` (`POST /`).

JavaScript numbers entered through `Number(...)` / `parseFloat(...)` are
modelled as `Option ℚ`, with `none` standing for `NaN`; JS `undefined` /
`null` object fields are modelled as `Option` values.
-/

namespace CivicPulse

/-- Helper for `jsSplitComma`: the accumulator holds the current chunk's
characters in reverse. -/
def splitCommaAux : List Char → List Char → List String
  | [], acc => [String.mk acc.reverse]
  | c :: rest, acc =>
    if c = ',' then String.mk acc.reverse :: splitCommaAux rest []
    else splitCommaAux rest (c :: acc)

/-- JS `s.split(",")`: the comma-separated chunks of `s`, with
`"".split(",") = [""]`. -/
def jsSplitComma (s : String) : List String := splitCommaAux s.toList []

/-- JS `s.trim()`: strip leading and trailing whitespace. -/
def jsTrim (s : String) : String :=
  String.mk
    (((s.toList.dropWhile Char.isWhitespace).reverse.dropWhile
        Char.isWhitespace).reverse)

/-- Digits-to-value accumulator used by the number parsers
(the value of a digit string read left to right). -/
def digitsToNat (cs : List Char) : Nat :=
  cs.foldl (fun a c => a * 10 + (c.toNat - 48)) 0

/-- The rational value of an integer part and a fraction part,
`ip.fp` read as a decimal literal (stated with `mkRat` so that the value
is computable by the kernel). -/
def decValue (ip fp : List Char) : ℚ :=
  mkRat (digitsToNat ip * 10 ^ fp.length + digitsToNat fp) (10 ^ fp.length)

/-- Parse a longest prefix of the form `digits`, `digits.digits`, `.digits`
or `digits.` from a character list; returns the value and the unconsumed
rest, or `none` when no digit is consumed (the JS `NaN` outcome).
Exponent, hexadecimal and `Infinity` forms of JS numeric syntax are not
modelled; none of the inputs the claims mention use them. -/
def parseDecPrefix (cs : List Char) : Option (ℚ × List Char) :=
  let ip := cs.takeWhile Char.isDigit
  let rest := cs.dropWhile Char.isDigit
  match rest with
  | '.' :: rest2 =>
      let fp := rest2.takeWhile Char.isDigit
      let rest3 := rest2.dropWhile Char.isDigit
      if ip.isEmpty && fp.isEmpty then none
      else some (decValue ip fp, rest3)
  | _ => if ip.isEmpty then none else some (mkRat (digitsToNat ip) 1, rest)

/-- Split an optional leading sign from a character list; the `Bool` is
`true` when the value must be negated. -/
def signSplit (cs : List Char) : Bool × List Char :=
  match cs with
  | '-' :: rest => (true, rest)
  | '+' :: rest => (false, rest)
  | _ => (false, cs)

/-- Model of the JS `Number(s)` conversion on strings (as used by
`setLocationFromInput` in `src/civic-pulse/src/App.js`): surrounding
whitespace is ignored, the empty / whitespace-only string converts to `0`,
otherwise the whole remaining string must be a signed decimal literal;
`none` models `NaN`. -/
def jsNumber (s : String) : Option ℚ :=
  let t := jsTrim s
  if t = "" then some 0
  else
    let (neg, cs) := signSplit t.toList
    match parseDecPrefix cs with
    | some (q, []) => some (if neg then -q else q)
    | _ => none

/-- Model of the JS `parseFloat(s)` conversion (as used by the backend
complaint-creation route in `src/unnamed/part_000`): surrounding whitespace
is ignored, a signed decimal prefix is parsed and trailing junk is
discarded; `none` models `NaN` (no digit could be consumed). -/
def jsParseFloat (s : String) : Option ℚ :=
  let (neg, cs) := signSplit (jsTrim s).toList
  (parseDecPrefix cs).map (fun p => if neg then -p.1 else p.1)

/-! ## The civic-pulse front-end variant (`src/civic-pulse/src/App.js`) -/

/-- A report as built by `submitReport` in `src/civic-pulse/src/App.js`:
`{ id: Date.now(), type: issueType, authority, lat, lng, photo: photoPreview,
audio: audioBlob ? URL.createObjectURL(audioBlob) : null, votes: 0,
comments: [] }`.  The object literal carries **no** `status` key: reading
`r.status` in JS yields `undefined`, modelled here as the field
`status : Option String` which `submitReport` leaves at `none`.  The opaque
object-URL wrapping of the audio blob is modelled as the blob handle
itself. -/
structure Report where
  id : Nat
  type : String
  authority : String
  lat : ℚ
  lng : ℚ
  photo : Option String
  audio : Option String
  votes : Nat
  comments : List String
  status : Option String
  deriving DecidableEq, Repr

/-- The component state of `src/civic-pulse/src/App.js` that the submission
pipeline and the vote/comment mutations touch: the `reports` list, the
draft fields, and the per-report comment input buffers
(`commentTexts`, an object keyed by report id; a missing key is `none`). -/
structure CState where
  reports : List Report
  issueType : String
  authority : String
  location : ℚ × ℚ
  locationInput : String
  photo : Option String
  photoPreview : Option String
  audioBlob : Option String
  commentTexts : Nat → Option String

/-- The `newReport` object literal of `submitReport` in
`src/civic-pulse/src/App.js` (lines 100–110): built from the current draft
with `votes: 0`, `comments: []` and `id: Date.now()` (passed in as
`now`). -/
def civicReport (now : Nat) (st : CState) : Report :=
  { id := now
    type := st.issueType
    authority := st.authority
    lat := st.location.1
    lng := st.location.2
    photo := st.photoPreview
    audio := st.audioBlob
    votes := 0
    comments := []
    status := none }

/-- `submitReport` from `src/civic-pulse/src/App.js` (lines 98–117):
prepend the new report (`setReports([newReport, ...reports])`), clear the
photo and audio draft fields, and initialise the new report's comment
buffer to `""`. -/
def submitCivic (now : Nat) (st : CState) : CState :=
  { st with
    reports := civicReport now st :: st.reports
    photo := none
    photoPreview := none
    audioBlob := none
    commentTexts := fun j => if j = now then some "" else st.commentTexts j }

/-- `upvote` from `src/civic-pulse/src/App.js` (lines 119–123):
`prev.map((r) => (r.id === id ? { ...r, votes: r.votes + 1 } : r))`. -/
def upvote (id : Nat) (rs : List Report) : List Report :=
  rs.map (fun r => if r.id = id then { r with votes := r.votes + 1 } else r)

/-- `addComment` from `src/civic-pulse/src/App.js` (lines 125–134):
`const text = commentTexts[id]?.trim(); if (!text) return;` — a missing
buffer (`undefined`) or a whitespace-only buffer is a silent no-op —
otherwise append the trimmed text to the matching report's comments and
reset that report's buffer to `""`. -/
def addComment (id : Nat) (st : CState) : CState :=
  match st.commentTexts id with
  | none => st
  | some s =>
    let text := jsTrim s
    if text = "" then st
    else
      { st with
        reports := st.reports.map (fun r =>
          if r.id = id then { r with comments := r.comments ++ [text] } else r)
        commentTexts := fun j => if j = id then some "" else st.commentTexts j }

/-- `addComment` from the "Initial code.js" variant embedded in
`src/civic-pulse/src/App.js` (lines 495–501): a single shared buffer
`commentText`; `if (!commentText.trim()) return;` and otherwise the **raw
(untrimmed)** `commentText` is appended and the shared buffer cleared. -/
def addCommentInitial (id : Nat) (commentText : String) (rs : List Report) :
    List Report × String :=
  if jsTrim commentText = "" then (rs, commentText)
  else
    (rs.map (fun r =>
      if r.id = id then { r with comments := r.comments ++ [commentText] } else r),
     "")

/-- `setLocationFromInput` from `src/civic-pulse/src/App.js` (lines
141–148): `const [lat, lng] = locationInput.split(",").map(Number);
if (!isNaN(lat) && !isNaN(lng)) setLocation({lat, lng}) else alert(...)`.
Returns the (possibly updated) location and whether the input was
accepted.  A missing second half destructures to `undefined`, for which
`isNaN` is true, modelled as `none`.  The source performs **no** range
check on the parsed values. -/
def setLocationFromInput (input : String) (loc : ℚ × ℚ) : (ℚ × ℚ) × Bool :=
  let parts := jsSplitComma input
  let latQ := match parts.get? 0 with
    | some s => jsNumber s
    | none => none
  let lngQ := match parts.get? 1 with
    | some s => jsNumber s
    | none => none
  match latQ, lngQ with
  | some la, some ln => ((la, ln), true)
  | _, _ => (loc, false)

/-! ## The address-geocoding variant (`src/unnamed/part_000`, "sample run.js") -/

/-- One candidate returned by the Nominatim geocoding oracle, already
parsed into coordinates (the source applies `parseFloat` to the oracle's
`lat` / `lon` strings of the first candidate). -/
structure GeoCandidate where
  lat : ℚ
  lon : ℚ
  deriving DecidableEq, Repr

/-- `geocodeAddress` from `src/unnamed/part_000` (lines 125–138), with the
oracle's HTTP response passed in as the candidate list: if the list is
non-empty return the first candidate's coordinates, otherwise `null`. -/
def geocodeAddress (resp : List GeoCandidate) : Option (ℚ × ℚ) :=
  match resp with
  | [] => none
  | c :: _ => some (c.lat, c.lon)

/-- A report as built by `submitReport` in `src/unnamed/part_000`
(lines 202–214); the decorative `customIcon` built from the photo is not
part of the observable data and is omitted. -/
structure GReport where
  id : Nat
  issueType : String
  authority : String
  address : String
  lat : ℚ
  lng : ℚ
  photoPreview : String
  audioUrl : Option String
  votes : Nat
  comments : List String
  deriving DecidableEq, Repr

/-- The component state of the "sample run.js" variant in
`src/unnamed/part_000` touched by its submission pipeline. -/
structure GState where
  issueType : String
  authority : String
  address : String
  photoFile : Option String
  photoPreview : Option String
  audioBlob : Option String
  reports : List GReport
  mapCenter : ℚ × ℚ
  commentTexts : Nat → Option String

/-- The outcome `submitReport` surfaces to the user in
`src/unnamed/part_000`: one of the three `alert` early returns, or a
created report. -/
inductive GOutcome where
  | missingAddress
  | missingPhoto
  | notFound
  | created
  deriving DecidableEq, Repr

/-- `submitReport` from `src/unnamed/part_000` (lines 174–225): reject a
blank address, then a missing photo; geocode the address (oracle response
passed in as `resp`); on zero matches alert "Address not found" and return
with nothing changed; otherwise build the report, prepend it, recentre the
map on the geocoded coordinates and reset the draft. -/
def submitGeo (now : Nat) (resp : List GeoCandidate) (st : GState) :
    GOutcome × GState :=
  if jsTrim st.address = "" then (.missingAddress, st)
  else
    match st.photoPreview with
    | none => (.missingPhoto, st)
    | some preview =>
      match geocodeAddress resp with
      | none => (.notFound, st)
      | some coords =>
        let newReport : GReport :=
          { id := now
            issueType := st.issueType
            authority := st.authority
            address := st.address
            lat := coords.1
            lng := coords.2
            photoPreview := preview
            audioUrl := st.audioBlob
            votes := 0
            comments := [] }
        (.created,
         { st with
           reports := newReport :: st.reports
           mapCenter := coords
           address := ""
           photoFile := none
           photoPreview := none
           audioBlob := none
           commentTexts := fun j => if j = now then some "" else st.commentTexts j })

/-! ## The photo-required variant (`src/unnamed/part_002`) -/

/-- A report as built by `submitReport` in `src/unnamed/part_002`
(lines 72–79): `{ id, type, authority, lat, lng, photo }`. -/
structure PReport where
  id : Nat
  type : String
  authority : String
  lat : ℚ
  lng : ℚ
  photo : String
  deriving DecidableEq, Repr

/-- The component state of `src/unnamed/part_002` touched by its
submission pipeline; the map focus is `center=[location.lat, location.lng]`,
i.e. the `location` field itself. -/
structure PState where
  reports : List PReport
  issueType : String
  authority : String
  location : ℚ × ℚ
  locationInput : String
  photo : Option String
  photoPreview : Option String
  deriving DecidableEq, Repr

/-- `submitReport` from `src/unnamed/part_002` (lines 65–84): reject
(`alert` and return, nothing mutated) when no photo preview is present;
otherwise prepend the new report built from the draft and clear the photo
fields.  Returns whether the submission was accepted. -/
def submitPhoto (now : Nat) (st : PState) : Bool × PState :=
  match st.photoPreview with
  | none => (false, st)
  | some preview =>
    let newReport : PReport :=
      { id := now
        type := st.issueType
        authority := st.authority
        lat := st.location.1
        lng := st.location.2
        photo := preview }
    (true,
     { st with
       reports := newReport :: st.reports
       photo := none
       photoPreview := none })

/-! ## The backend: admin routes and complaint creation
(`src/routes/adminRoutes.js`, `src/unnamed/part_000` complaint routes,
`src/models/Complaints.js`) -/

/-- A persisted complaint document per the mongoose schema in
`src/models/Complaints.js`.  `coordinates` keeps the schema's `[lng, lat]`
order as the pair `(lng, lat)`. -/
structure DbComplaint where
  id : Nat
  title : String
  description : Option String
  category : String
  authority : String
  coordinates : ℚ × ℚ
  imageUrl : Option String
  status : String
  createdBy : Nat
  assignedTo : Option String
  createdAt : Nat
  updatedAt : Nat
  deriving DecidableEq, Repr

/-- The HTTP responses the admin routes produce: 400, 404, or 200 with the
updated document. -/
inductive ApiResult where
  | badRequest (msg : String)
  | notFound (msg : String)
  | ok (c : DbComplaint)
  deriving DecidableEq, Repr

/-- `Complaint.findByIdAndUpdate(id, update, { new: true })` over an
in-memory document list: update the document whose `_id` matches (ids are
unique in the store, so the first match) and return it post-update, or
`none` when no document matches. -/
def findByIdAndUpdate (db : List DbComplaint) (id : Nat)
    (f : DbComplaint → DbComplaint) : Option DbComplaint × List DbComplaint :=
  match db with
  | [] => (none, [])
  | c :: rest =>
    if c.id = id then (some (f c), f c :: rest)
    else
      let (r, rest2) := findByIdAndUpdate rest id f
      (r, c :: rest2)

/-- The `allowed` list of `PATCH /complaints/:id/status` in
`src/routes/adminRoutes.js` (line 23). -/
def allowedStatuses : List String := ["pending", "in-progress", "resolved"]

/-- `PATCH /complaints/:id/status` from `src/routes/adminRoutes.js`
(lines 20–33): 400 "Invalid status" unless the status is in `allowed`;
then `findByIdAndUpdate(id, { status, updatedAt: Date.now() })`;
404 "Complaint not found" when no document matches. -/
def setStatus (now : Nat) (id : Nat) (status : String)
    (db : List DbComplaint) : ApiResult × List DbComplaint :=
  if allowedStatuses.contains status then
    match findByIdAndUpdate db id
        (fun c => { c with status := status, updatedAt := now }) with
    | (none, _) => (.notFound "Complaint not found", db)
    | (some c, db2) => (.ok c, db2)
  else (.badRequest "Invalid status", db)

/-- `PATCH /complaints/:id/assign` from `src/routes/adminRoutes.js`
(lines 36–46): `findByIdAndUpdate(id, { assignedTo, updatedAt: Date.now() })`;
404 "Complaint not found" when no document matches (no validation is
performed on the assignee value in this route). -/
def setAssignment (now : Nat) (id : Nat) (assignedTo : String)
    (db : List DbComplaint) : ApiResult × List DbComplaint :=
  match findByIdAndUpdate db id
      (fun c => { c with assignedTo := some assignedTo, updatedAt := now }) with
  | (none, _) => (.notFound "Complaint not found", db)
  | (some c, db2) => (.ok c, db2)

/-- The body of an authenticated `POST /complaints` request in
`src/unnamed/part_000` (lines 23–49); each field is absent (`none`) or a
string. -/
structure CreateBody where
  title : Option String
  description : Option String
  category : Option String
  authority : Option String
  lat : Option String
  lng : Option String
  deriving DecidableEq, Repr

/-- JS truthiness of an optional string field: `undefined` and `""` are
falsy, every other string truthy. -/
def truthy (o : Option String) : Bool :=
  match o with
  | none => false
  | some s => s ≠ ""

/-- `parseFloat(v) || 0` on a possibly-absent request field:
`parseFloat(undefined)` and `parseFloat` of an unparseable string are
`NaN`, which `|| 0` turns into `0`; a parsed `0` is falsy and `|| 0` keeps
it `0`, so the result is the parsed value with `0` for every failure. -/
def parseFloatOr0 (o : Option String) : ℚ :=
  match o with
  | none => 0
  | some s =>
    match jsParseFloat s with
    | none => 0
    | some q => q

/-- The document built by `POST /` (create complaint) in
`src/unnamed/part_000` (lines 30–41): `location.coordinates =
[parseFloat(lng) || 0, parseFloat(lat) || 0]`, the optional upload as
`imageUrl`, and the schema defaults of `src/models/Complaints.js`
(`status: 'pending'`, `createdAt`/`updatedAt: Date.now`). -/
def complaintDoc (now : Nat) (userId : Nat) (file : Option String)
    (b : CreateBody) : DbComplaint :=
  { id := now
    title := b.title.getD ""
    description := b.description
    category := b.category.getD ""
    authority := b.authority.getD ""
    coordinates := (parseFloatOr0 b.lng, parseFloatOr0 b.lat)
    imageUrl := file.map (fun f => "/uploads/" ++ f)
    status := "pending"
    createdBy := userId
    assignedTo := none
    createdAt := now
    updatedAt := now }

/-- `POST /` (create complaint) from `src/unnamed/part_000` (lines 23–49):
400 when any of title, category, authority is missing or empty
(`if (!title || !category || !authority)`); otherwise build, save and
return the new document.  Note that `lat` / `lng` are never validated:
they cannot cause a rejection. -/
def createComplaint (now : Nat) (userId : Nat) (file : Option String)
    (b : CreateBody) : Except String DbComplaint :=
  if truthy b.title && truthy b.category && truthy b.authority then
    .ok (complaintDoc now userId file b)
  else .error "title, category and authority are required"

/-! ## Concrete fixtures

`mkRat 110168 10000 = 11.0168` and `mkRat 769558 10000 = 76.9558`, the
direct-entry coordinates used throughout §8 of the spec; `mkRat` is used
instead of decimal literals so that the kernel can evaluate the
statements. -/

/-- A concrete report already in the collection: id 1, no votes, no
comments. -/
def r0 : Report :=
  { id := 1
    type := "Pothole"
    authority := "muni-1"
    lat := mkRat 110168 10000
    lng := mkRat 769558 10000
    photo := none
    audio := none
    votes := 0
    comments := []
    status := none }

/-- A concrete civic-pulse component state holding a valid draft:
category and authority set, in-range direct-entry coordinates
(11.0168, 76.9558), a photo attached, empty collection. -/
def cInit : CState :=
  { reports := []
    issueType := "Pothole"
    authority := "muni-1"
    location := (mkRat 110168 10000, mkRat 769558 10000)
    locationInput := "11.0168,76.9558"
    photo := some "pothole.jpg"
    photoPreview := some "blob:pothole"
    audioBlob := none
    commentTexts := fun _ => none }

/-- A civic-pulse state whose collection holds `r0` and whose comment
buffer for report 1 holds `" pipe broken "`. -/
def c4St : CState :=
  { cInit with
    reports := [r0]
    commentTexts := fun j => if j = 1 then some " pipe broken " else none }

/-- A concrete state of the geocoding variant with a non-blank address and
a photo attached. -/
def g5St : GState :=
  { issueType := "Pothole"
    authority := "muni-1"
    address := "MG Road Coimbatore"
    photoFile := some "pothole.jpg"
    photoPreview := some "blob:pothole"
    audioBlob := none
    reports := []
    mapCenter := (mkRat 20 1, 0)
    commentTexts := fun _ => none }

/-- A concrete state of the photo-required variant: valid draft
(category Pothole, authority muni-1, coordinates (11.0168, 76.9558)) but
no photo. -/
def c6Init : PState :=
  { reports := []
    issueType := "Pothole"
    authority := "muni-1"
    location := (mkRat 110168 10000, mkRat 769558 10000)
    locationInput := "11.0168,76.9558"
    photo := none
    photoPreview := none }

/-- The same draft with a photo attached. -/
def c6WithPhoto : PState :=
  { c6Init with photo := some "photo.jpg", photoPreview := some "blob:photo" }

/-- A concrete persisted complaint document with id 10. -/
def d0 : DbComplaint :=
  { id := 10
    title := "Pothole on MG Road"
    description := some "deep pothole"
    category := "Pothole"
    authority := "muni-1"
    coordinates := (mkRat 769558 10000, mkRat 110168 10000)
    imageUrl := none
    status := "pending"
    createdBy := 3
    assignedTo := none
    createdAt := 1000
    updatedAt := 1000 }

/-- A concrete `POST /complaints` body with the required fields present,
an unparseable `lat` and an absent `lng`. -/
def c10Body : CreateBody :=
  { title := some "Pothole on MG Road"
    description := none
    category := some "Pothole"
    authority := some "muni-1"
    lat := some "abc"
    lng := none }

/-! ## Helper lemmas -/

/-- Iterating `upvote id` `n` times adds exactly `n` votes to every report
whose id matches and leaves every other report untouched. -/
theorem upvote_iterate (id : Nat) (n : Nat) (rs : List Report) :
    (upvote id)^[n] rs =
      rs.map (fun r => if r.id = id then { r with votes := r.votes + n } else r) := by
  induction n with
  | zero =>
    have h : (fun r : Report =>
        if r.id = id then { r with votes := r.votes + 0 } else r) = fun r => r := by
      funext r
      by_cases hr : r.id = id
      · rw [if_pos hr]
        cases r
        rfl
      · rw [if_neg hr]
    simp only [Function.iterate_zero, id_eq, h, List.map_id']
  | succ n ih =>
    rw [Function.iterate_succ_apply', ih]
    unfold upvote
    rw [List.map_map]
    congr 1
    funext r
    by_cases hr : r.id = id <;> simp [hr, Function.comp, Nat.add_assoc]

/-- `findByIdAndUpdate` misses when no document has the id. -/
theorem findByIdAndUpdate_none (id : Nat) (f : DbComplaint → DbComplaint) :
    ∀ db : List DbComplaint, (∀ c ∈ db, c.id ≠ id) →
      findByIdAndUpdate db id f = (none, db) := by
  intro db
  induction db with
  | nil => intro _; rfl
  | cons c rest ih =>
    intro h
    have hc : c.id ≠ id := h c (List.mem_cons_self c rest)
    have hrest : ∀ x ∈ rest, x.id ≠ id := fun x hx => h x (List.mem_cons_of_mem c hx)
    simp [findByIdAndUpdate, hc, ih hrest]

/-- `findByIdAndUpdate` hits the first document whose id matches and
rewrites exactly that document. -/
theorem findByIdAndUpdate_found (id : Nat) (f : DbComplaint → DbComplaint)
    (c : DbComplaint) (post : List DbComplaint) (hc : c.id = id) :
    ∀ pre : List DbComplaint, (∀ x ∈ pre, x.id ≠ id) →
      findByIdAndUpdate (pre ++ c :: post) id f = (some (f c), pre ++ f c :: post) := by
  intro pre
  induction pre with
  | nil => intro _; simp [findByIdAndUpdate, hc]
  | cons x rest ih =>
    intro h
    have hx : x.id ≠ id := h x (List.mem_cons_self x rest)
    have hrest : ∀ y ∈ rest, y.id ≠ id := fun y hy => h y (List.mem_cons_of_mem x hy)
    simp [findByIdAndUpdate, hx, ih hrest]

/-! ## Claim theorems -/

/-- C1, counterexample: in `src/civic-pulse/src/App.js` the `newReport`
object literal of `submitReport` carries no `status` key at all, so on the
concrete valid draft `cInit` (category, authority, photo set; in-range
direct-entry coordinates 11.0168, 76.9558) the claim's "status set to the
initial state" fails: the created report's status is unset (`none`), not
the initial status value ("New" / "pending"). -/
theorem c1_submission_counterexample :
    (submitCivic 1 cInit).reports.map Report.status = [none] ∧
    (none : Option String) ≠ some "New" ∧
    (none : Option String) ≠ some "pending" := by
  decide

/-- C1, amended: for every draft with in-range coordinates, `submitReport`
produces exactly one new report — prepended, so the collection grows by
exactly 1 and the old collection is its tail — whose fields match the
draft, with votes 0 and comments empty; no status field is set. -/
theorem c1_submission_amended (now : Nat) (st : CState)
    (hlat₁ : -90 ≤ st.location.1) (hlat₂ : st.location.1 ≤ 90)
    (hlng₁ : -180 ≤ st.location.2) (hlng₂ : st.location.2 ≤ 180) :
    (submitCivic now st).reports.length = st.reports.length + 1 ∧
    (submitCivic now st).reports = civicReport now st :: st.reports ∧
    (civicReport now st).id = now ∧
    (civicReport now st).type = st.issueType ∧
    (civicReport now st).authority = st.authority ∧
    (civicReport now st).lat = st.location.1 ∧
    (civicReport now st).lng = st.location.2 ∧
    (civicReport now st).photo = st.photoPreview ∧
    (civicReport now st).audio = st.audioBlob ∧
    (civicReport now st).votes = 0 ∧
    (civicReport now st).comments = [] := by
  refine ⟨?_, rfl, rfl, rfl, rfl, rfl, rfl, rfl, rfl, rfl, rfl⟩
  simp [submitCivic]

/-- C1, witness: the amended theorem applied to the concrete valid draft
`cInit` at timestamp 42. -/
theorem c1_submission_amended_witness :
    (submitCivic 42 cInit).reports.length = cInit.reports.length + 1 ∧
    (submitCivic 42 cInit).reports = civicReport 42 cInit :: cInit.reports ∧
    (civicReport 42 cInit).id = 42 ∧
    (civicReport 42 cInit).type = cInit.issueType ∧
    (civicReport 42 cInit).authority = cInit.authority ∧
    (civicReport 42 cInit).lat = cInit.location.1 ∧
    (civicReport 42 cInit).lng = cInit.location.2 ∧
    (civicReport 42 cInit).photo = cInit.photoPreview ∧
    (civicReport 42 cInit).audio = cInit.audioBlob ∧
    (civicReport 42 cInit).votes = 0 ∧
    (civicReport 42 cInit).comments = [] :=
  c1_submission_amended 42 cInit (by decide) (by decide) (by decide) (by decide)

/-- C2, counterexample: `setLocationFromInput` performs no range check, so
the input `"200,76.9"` (latitude 200, outside [-90, 90]) is **accepted**
and changes the position from (11.0168, 76.9558) to (200, 76.9), where the
claim demands rejection with the position unchanged. -/
theorem c2_direct_entry_counterexample :
    setLocationFromInput "200,76.9" (mkRat 110168 10000, mkRat 769558 10000) =
      ((mkRat 200 1, mkRat 769 10), true) ∧
    (mkRat 200 1, mkRat 769 10) ≠ (mkRat 110168 10000, mkRat 769558 10000) := by
  decide

/-- C2, amended: direct entry splits on a comma and converts both halves
with the JS `Number` conversion; `"11.0168,76.9558"` is accepted and
yields that position, and any input in which either half converts to `NaN`
(e.g. `"abc,76.9"`) or which has no second half is rejected without
changing the position — but no latitude/longitude range check is
performed, so out-of-range inputs such as `"200,76.9"` are accepted. -/
theorem c2_direct_entry_amended :
    (∀ loc : ℚ × ℚ,
      setLocationFromInput "11.0168,76.9558" loc =
        ((mkRat 110168 10000, mkRat 769558 10000), true)) ∧
    (∀ loc : ℚ × ℚ, setLocationFromInput "abc,76.9" loc = (loc, false)) ∧
    (∀ loc : ℚ × ℚ,
      setLocationFromInput "200,76.9" loc = ((mkRat 200 1, mkRat 769 10), true)) ∧
    (∀ (input : String) (loc : ℚ × ℚ) (s : String),
      (jsSplitComma input).get? 0 = some s → jsNumber s = none →
      setLocationFromInput input loc = (loc, false)) ∧
    (∀ (input : String) (loc : ℚ × ℚ) (s : String),
      (jsSplitComma input).get? 1 = some s → jsNumber s = none →
      setLocationFromInput input loc = (loc, false)) ∧
    (∀ (input : String) (loc : ℚ × ℚ),
      (jsSplitComma input).get? 1 = none →
      setLocationFromInput input loc = (loc, false)) := by
  refine ⟨fun loc => rfl, fun loc => rfl, fun loc => rfl, ?_, ?_, ?_⟩
  · intro input loc s h0 hn
    simp only [setLocationFromInput, h0, hn]
  · intro input loc s h1 hn
    cases h0 : (jsSplitComma input).get? 0 with
    | none => simp only [setLocationFromInput, h0]
    | some s0 =>
      cases hj : jsNumber s0 with
      | none => simp only [setLocationFromInput, h0, hj]
      | some q => simp only [setLocationFromInput, h0, hj, h1, hn]
  · intro input loc h1
    cases h0 : (jsSplitComma input).get? 0 with
    | none => simp only [setLocationFromInput, h0]
    | some s0 =>
      cases hj : jsNumber s0 with
      | none => simp only [setLocationFromInput, h0, hj]
      | some q => simp only [setLocationFromInput, h0, hj, h1]

/-- C2, witness: the rejection clause of the amended theorem applied to
the concrete input `"abc,76.9"`, whose first half converts to `NaN`. -/
theorem c2_direct_entry_amended_witness :
    setLocationFromInput "abc,76.9" (1, 2) = ((1, 2), false) :=
  c2_direct_entry_amended.2.2.2.1 "abc,76.9" (1, 2) "abc" (by decide) (by decide)

/-- C3: iterating `upvote id` `n` times adds exactly `n` votes to every
report whose id matches (so `n` calls starting from 0 votes yield `n`
votes, each call adding exactly 1) and leaves all other reports untouched;
an `upvote` whose id matches no report leaves the collection entirely
unchanged. -/
theorem c3_upvote :
    (∀ (id : Nat) (n : Nat) (rs : List Report),
      (upvote id)^[n] rs =
        rs.map (fun r => if r.id = id then { r with votes := r.votes + n } else r)) ∧
    (∀ (id : Nat) (rs : List Report),
      (∀ r ∈ rs, r.id ≠ id) → upvote id rs = rs) := by
  constructor
  · intro id n rs
    exact upvote_iterate id n rs
  · intro id rs
    induction rs with
    | nil => intro _; rfl
    | cons r rest ih =>
      intro h
      have hr : r.id ≠ id := h r (List.mem_cons_self r rest)
      have hrest : ∀ x ∈ rest, x.id ≠ id := fun x hx => h x (List.mem_cons_of_mem r hx)
      have := ih hrest
      simp only [upvote] at this ⊢
      simp [hr, this]

/-- C3, witness: upvoting id 99, present in no report of `[r0]`, is a
no-op on the collection. -/
theorem c3_upvote_witness : upvote 99 [r0] = [r0] :=
  c3_upvote.2 99 [r0] (by decide)

/-- C4, counterexample: the "Initial code.js" `addComment` variant cited
by the claim appends the **raw** buffer text, not the trimmed text: with
buffer `" pipe broken "` the comment stored on report 1 is
`" pipe broken "`, which differs from its trimmed form, refuting "appends
exactly the trimmed text" for that variant. -/
theorem c4_addComment_counterexample :
    (addCommentInitial 1 " pipe broken " [r0]).1.map Report.comments =
      [[" pipe broken "]] ∧
    " pipe broken " ≠ jsTrim " pipe broken " := by
  decide

/-- C4, amended: in the per-report-buffer variant
(`src/civic-pulse/src/App.js` lines 125–134) the claim holds exactly: a
missing, empty or whitespace-only buffer is a silent no-op, and otherwise
exactly the trimmed text is appended (preserving the order of all prior
comments) and that id's buffer is cleared.  In the "Initial code.js"
variant the same blank guard applies but the **untrimmed** buffer text is
appended (and the single shared buffer is cleared). -/
theorem c4_addComment_amended :
    (∀ (id : Nat) (st : CState),
      st.commentTexts id = none → addComment id st = st) ∧
    (∀ (id : Nat) (st : CState) (s : String),
      st.commentTexts id = some s → jsTrim s = "" → addComment id st = st) ∧
    (∀ (id : Nat) (st : CState) (s : String),
      st.commentTexts id = some s → jsTrim s ≠ "" →
      (addComment id st).reports =
        st.reports.map (fun r =>
          if r.id = id then { r with comments := r.comments ++ [jsTrim s] } else r) ∧
      (addComment id st).commentTexts id = some "") ∧
    (∀ (id : Nat) (t : String) (rs : List Report),
      jsTrim t = "" → addCommentInitial id t rs = (rs, t)) ∧
    (∀ (id : Nat) (t : String) (rs : List Report),
      jsTrim t ≠ "" →
      addCommentInitial id t rs =
        (rs.map (fun r =>
          if r.id = id then { r with comments := r.comments ++ [t] } else r), "")) := by
  refine ⟨?_, ?_, ?_, ?_, ?_⟩
  · intro id st h
    simp [addComment, h]
  · intro id st s h ht
    simp [addComment, h, ht]
  · intro id st s h ht
    simp [addComment, h, ht]
  · intro id t rs ht
    simp [addCommentInitial, ht]
  · intro id t rs ht
    simp [addCommentInitial, ht]

/-- C4, witness: the append clause of the amended theorem on the concrete
state `c4St` (buffer `" pipe broken "` for report 1). -/
theorem c4_addComment_amended_witness :
    (addComment 1 c4St).reports =
      c4St.reports.map (fun r =>
        if r.id = 1 then
          { r with comments := r.comments ++ [jsTrim " pipe broken "] }
        else r) ∧
    (addComment 1 c4St).commentTexts 1 = some "" :=
  c4_addComment_amended.2.2.1 1 c4St " pipe broken " (by decide) (by decide)

/-- C5: when the address-geocoding oracle returns zero candidates for a
submission that reaches the geocoding step (non-blank address, photo
attached), `submitReport` surfaces the "not found" outcome and returns
with the state exactly as it was: the report collection, the map focus and
every draft field are unchanged and no report is created. -/
theorem c5_geocode_zero_results (now : Nat) (st : GState)
    (haddr : jsTrim st.address ≠ "") (hphoto : st.photoPreview ≠ none) :
    submitGeo now [] st = (GOutcome.notFound, st) := by
  unfold submitGeo
  rw [if_neg haddr]
  cases hp : st.photoPreview with
  | none => exact absurd hp hphoto
  | some preview => simp [geocodeAddress]

/-- C5, witness: the theorem applied to the concrete state `g5St`
(address "MG Road Coimbatore", photo attached) at timestamp 7. -/
theorem c5_geocode_zero_results_witness :
    submitGeo 7 [] g5St = (GOutcome.notFound, g5St) :=
  c5_geocode_zero_results 7 g5St (by decide) (by decide)

/-- C6: in the photo-required variant (`src/unnamed/part_002`), submitting
the valid draft (category Pothole, authority muni-1, in-range coordinates
(11.0168, 76.9558)) without a photo is rejected and the collection stays
empty; resubmitting with a photo attached is accepted, the collection
length becomes 1, and the map focus (the `location` state the map is
centred on) is the submitted coordinates, which the stored report also
carries. -/
theorem c6_photo_required_scenario :
    submitPhoto 100 c6Init = (false, c6Init) ∧
    c6Init.reports.length = 0 ∧
    (submitPhoto 101 c6WithPhoto).1 = true ∧
    (submitPhoto 101 c6WithPhoto).2.reports.length = 1 ∧
    (submitPhoto 101 c6WithPhoto).2.location =
      (mkRat 110168 10000, mkRat 769558 10000) ∧
    (submitPhoto 101 c6WithPhoto).2.reports.map (fun r => (r.lat, r.lng)) =
      [(mkRat 110168 10000, mkRat 769558 10000)] ∧
    (submitPhoto 101 c6WithPhoto).2.reports.map PReport.type = ["Pothole"] ∧
    (submitPhoto 101 c6WithPhoto).2.reports.map PReport.authority = ["muni-1"] := by
  decide

/-- C7: `setStatus` rejects (400 "Invalid status", store untouched) any
status outside {pending, in-progress, resolved}; both `setStatus` and
`setAssignment` fail with 404 "Complaint not found" (store untouched) when
no document matches the id; and on success each replaces exactly its
target field and refreshes `updatedAt` (`{ c with ... }`), leaving every
other field of the document and every other document as stored. -/
theorem c7_admin_mutations :
    (∀ (now id : Nat) (s : String) (db : List DbComplaint),
      s ∉ allowedStatuses →
      setStatus now id s db = (.badRequest "Invalid status", db)) ∧
    (∀ (now id : Nat) (s : String) (db : List DbComplaint),
      s ∈ allowedStatuses → (∀ c ∈ db, c.id ≠ id) →
      setStatus now id s db = (.notFound "Complaint not found", db)) ∧
    (∀ (now id : Nat) (a : String) (db : List DbComplaint),
      (∀ c ∈ db, c.id ≠ id) →
      setAssignment now id a db = (.notFound "Complaint not found", db)) ∧
    (∀ (now id : Nat) (s : String) (pre : List DbComplaint)
        (c : DbComplaint) (post : List DbComplaint),
      s ∈ allowedStatuses → (∀ x ∈ pre, x.id ≠ id) → c.id = id →
      setStatus now id s (pre ++ c :: post) =
        (.ok { c with status := s, updatedAt := now },
         pre ++ { c with status := s, updatedAt := now } :: post)) ∧
    (∀ (now id : Nat) (a : String) (pre : List DbComplaint)
        (c : DbComplaint) (post : List DbComplaint),
      (∀ x ∈ pre, x.id ≠ id) → c.id = id →
      setAssignment now id a (pre ++ c :: post) =
        (.ok { c with assignedTo := some a, updatedAt := now },
         pre ++ { c with assignedTo := some a, updatedAt := now } :: post)) := by
  refine ⟨?_, ?_, ?_, ?_, ?_⟩
  · intro now id s db hs
    have hc : allowedStatuses.contains s = false := by
      rw [Bool.eq_false_iff]
      intro h
      exact hs (List.elem_iff.mp h)
    unfold setStatus
    rw [hc]
    simp
  · intro now id s db hs hnone
    have hc : allowedStatuses.contains s = true := List.elem_iff.mpr hs
    unfold setStatus
    rw [hc, findByIdAndUpdate_none id _ db hnone]
    simp
  · intro now id a db hnone
    unfold setAssignment
    rw [findByIdAndUpdate_none id _ db hnone]
  · intro now id s pre c post hs hpre hc
    have hcs : allowedStatuses.contains s = true := List.elem_iff.mpr hs
    unfold setStatus
    rw [hcs, findByIdAndUpdate_found id _ c post hc pre hpre]
    simp
  · intro now id a pre c post hpre hc
    unfold setAssignment
    rw [findByIdAndUpdate_found id _ c post hc pre hpre]

/-- C7, witness: setting status "in-progress" on the store `[d0]` (d0 has
id 10) at timestamp 2000 succeeds and rewrites exactly the status and
`updatedAt` fields. -/
theorem c7_admin_mutations_witness :
    setStatus 2000 10 "in-progress" ([] ++ d0 :: []) =
      (.ok { d0 with status := "in-progress", updatedAt := 2000 },
       [] ++ { d0 with status := "in-progress", updatedAt := 2000 } :: []) :=
  c7_admin_mutations.2.2.2.1 2000 10 "in-progress" [] d0 []
    (by decide) (by simp) (by decide)

/-- C8, counterexample: report ids are `Date.now()`, so two submissions
accepted within the same millisecond (both at timestamp 5) produce two
distinct reports — the first carries the draft's photo, the second none
because the draft was cleared — with **equal** ids, refuting uniqueness
under rapid repeated submission. -/
theorem c8_id_uniqueness_counterexample :
    (submitCivic 5 (submitCivic 5 cInit)).reports.map Report.id = [5, 5] ∧
    (submitCivic 5 (submitCivic 5 cInit)).reports.get? 0 ≠
      (submitCivic 5 (submitCivic 5 cInit)).reports.get? 1 := by
  decide

/-- C8, amended: each report's id is the millisecond timestamp of its
submission, assigned at creation; `upvote` and `addComment` never change
any id; and ids are unique **provided** no two accepted submissions share
the same millisecond — a fresh timestamp keeps the id list duplicate-free,
but two submissions within the same millisecond receive the same id. -/
theorem c8_id_uniqueness_amended :
    (∀ (now : Nat) (st : CState),
      (submitCivic now st).reports.map Report.id =
        now :: st.reports.map Report.id) ∧
    (∀ (id : Nat) (rs : List Report),
      (upvote id rs).map Report.id = rs.map Report.id) ∧
    (∀ (id : Nat) (st : CState),
      (addComment id st).reports.map Report.id = st.reports.map Report.id) ∧
    (∀ (now : Nat) (st : CState),
      now ∉ st.reports.map Report.id → (st.reports.map Report.id).Nodup →
      ((submitCivic now st).reports.map Report.id).Nodup) := by
  have hupvote : ∀ (id : Nat) (rs : List Report),
      (upvote id rs).map Report.id = rs.map Report.id := by
    intro id rs
    unfold upvote
    rw [List.map_map]
    congr 1
    funext r
    by_cases hr : r.id = id <;> simp [hr]
  refine ⟨fun now st => rfl, hupvote, ?_, ?_⟩
  · intro id st
    unfold addComment
    cases h : st.commentTexts id with
    | none => rfl
    | some s =>
      by_cases ht : jsTrim s = ""
      · simp [ht]
      · simp [ht, List.map_map]
        intro r _
        by_cases hr : r.id = id <;> simp [hr]
  · intro now st hnotin hnodup
    have h : (submitCivic now st).reports.map Report.id =
        now :: st.reports.map Report.id := rfl
    rw [h, List.nodup_cons]
    exact ⟨hnotin, hnodup⟩

/-- C8, witness: a single submission at the fresh timestamp 7 into the
empty collection of `cInit` keeps the id list duplicate-free. -/
theorem c8_id_uniqueness_amended_witness :
    ((submitCivic 7 cInit).reports.map Report.id).Nodup :=
  c8_id_uniqueness_amended.2.2.2 7 cInit (by decide) (by decide)

/-- C9: `upvote` and `addComment` are frame-preserving: the collection's
length and order are unchanged (stated positionally via `get?`), every
report whose id differs from the argument is unchanged in every field, the
matching report changes only its `votes` field (upvote) or only its
`comments` field (addComment), and `addComment` changes no comment buffer
other than the argument id's. -/
theorem c9_frame_preservation :
    (∀ (id : Nat) (rs : List Report),
      (upvote id rs).length = rs.length ∧
      ∀ i : Nat,
        (upvote id rs).get? i =
          (rs.get? i).map (fun r =>
            if r.id = id then { r with votes := r.votes + 1 } else r)) ∧
    (∀ (id : Nat) (st : CState),
      (addComment id st).reports.length = st.reports.length ∧
      (∀ (i : Nat) (r : Report),
        st.reports.get? i = some r → r.id ≠ id →
        (addComment id st).reports.get? i = some r) ∧
      (∀ (i : Nat) (r : Report),
        st.reports.get? i = some r → r.id = id →
        ∃ cs : List String,
          (addComment id st).reports.get? i = some { r with comments := cs }) ∧
      (∀ j : Nat, j ≠ id → (addComment id st).commentTexts j = st.commentTexts j)) := by
  constructor
  · intro id rs
    exact ⟨List.length_map rs _, fun i => List.get?_map _ rs i⟩
  · intro id st
    cases h : st.commentTexts id with
    | none =>
      have hst : addComment id st = st := by simp [addComment, h]
      rw [hst]
      exact ⟨rfl, fun i r hi _ => hi, fun i r hi _ => ⟨r.comments, by rw [hi]⟩,
        fun j _ => rfl⟩
    | some s =>
      by_cases ht : jsTrim s = ""
      · have hst : addComment id st = st := by simp [addComment, h, ht]
        rw [hst]
        exact ⟨rfl, fun i r hi _ => hi, fun i r hi _ => ⟨r.comments, by rw [hi]⟩,
          fun j _ => rfl⟩
      · have hreports : (addComment id st).reports =
            st.reports.map (fun r =>
              if r.id = id then { r with comments := r.comments ++ [jsTrim s] } else r) := by
          simp [addComment, h, ht]
        have hbuf : ∀ j : Nat, j ≠ id →
            (addComment id st).commentTexts j = st.commentTexts j := by
          intro j hj
          simp [addComment, h, ht, hj]
        refine ⟨?_, ?_, ?_, hbuf⟩
        · rw [hreports]
          exact List.length_map st.reports _
        · intro i r hi hr
          rw [hreports, List.get?_map, hi]
          simp [hr]
        · intro i r hi hr
          refine ⟨r.comments ++ [jsTrim s], ?_⟩
          rw [hreports, List.get?_map, hi]
          simp [hr]

/-- C9, witness: on the concrete state `c4St` (report 1 in the collection,
buffer set for id 1), `addComment 1` leaves the buffer of the unrelated
id 2 unchanged. -/
theorem c9_frame_preservation_witness :
    (addComment 1 c4St).commentTexts 2 = c4St.commentTexts 2 :=
  (c9_frame_preservation.2 1 c4St).2.2.2 2 (by decide)

/-- C10: an authenticated `POST /complaints` with title, category and
authority present always succeeds regardless of `lat` / `lng`; an absent
or unparseable component is stored as coordinate 0 (the document keeps the
schema's `[lng, lat]` order, so `.2` is the latitude and `.1` the
longitude), and the request is never rejected for invalid coordinates. -/
theorem c10_create_complaint_defaults :
    (∀ (now userId : Nat) (file : Option String) (b : CreateBody),
      truthy b.title = true → truthy b.category = true → truthy b.authority = true →
      createComplaint now userId file b = .ok (complaintDoc now userId file b)) ∧
    (∀ (now userId : Nat) (file : Option String) (b : CreateBody),
      b.lat = none → (complaintDoc now userId file b).coordinates.2 = 0) ∧
    (∀ (now userId : Nat) (file : Option String) (b : CreateBody) (s : String),
      b.lat = some s → jsParseFloat s = none →
      (complaintDoc now userId file b).coordinates.2 = 0) ∧
    (∀ (now userId : Nat) (file : Option String) (b : CreateBody),
      b.lng = none → (complaintDoc now userId file b).coordinates.1 = 0) ∧
    (∀ (now userId : Nat) (file : Option String) (b : CreateBody) (s : String),
      b.lng = some s → jsParseFloat s = none →
      (complaintDoc now userId file b).coordinates.1 = 0) := by
  refine ⟨?_, ?_, ?_, ?_, ?_⟩
  · intro now userId file b h1 h2 h3
    simp [createComplaint, h1, h2, h3]
  · intro now userId file b h
    simp [complaintDoc, parseFloatOr0, h]
  · intro now userId file b s h hp
    simp [complaintDoc, parseFloatOr0, h, hp]
  · intro now userId file b h
    simp [complaintDoc, parseFloatOr0, h]
  · intro now userId file b s h hp
    simp [complaintDoc, parseFloatOr0, h, hp]

/-- C10, witness: the concrete body `c10Body` (required fields present,
`lat = "abc"` unparseable, `lng` absent) is accepted, and both stored
coordinates default to 0. -/
theorem c10_create_complaint_defaults_witness :
    createComplaint 1 2 none c10Body = .ok (complaintDoc 1 2 none c10Body) ∧
    (complaintDoc 1 2 none c10Body).coordinates.2 = 0 ∧
    (complaintDoc 1 2 none c10Body).coordinates.1 = 0 :=
  ⟨c10_create_complaint_defaults.1 1 2 none c10Body (by decide) (by decide) (by decide),
   c10_create_complaint_defaults.2.2.1 1 2 none c10Body "abc" (by decide) (by decide),
   c10_create_complaint_defaults.2.2.2.1 1 2 none c10Body (by decide)⟩

end CivicPulse
